import Mathlib

/-!
Verification of the survivor-automation CLI (`survivor.py`).

The file shallowly embeds the program's pure core: the deterministic
external-id generation (MD5 over "HOME-AWAY-YYYYMMDDHHMM"), the
local-time-to-UTC conversion and ISO-8601 serialization performed with
`datetime`/`pytz`, the teams index, the SQLite-backed match store, the
`create-matches` / `create-room` / `set-week-results` /
`dump-week-template` command workflows (with HTTP and file effects made
explicit as event traces), and a spec-modelled reconciliation workflow.

Machine integers do not occur in the Python source (Python integers are
unbounded); the MD5 embedding works on `Nat` with explicit reduction
modulo 2^32 exactly where the algorithm demands 32-bit wrap-around.
-/

namespace Survivor

/-! ### Proleptic Gregorian calendar (the arithmetic behind Python `datetime`)

`datetime.date` / `datetime.datetime` implement the proleptic Gregorian
calendar.  We embed that arithmetic with the era-based algorithm:
days-since-Unix-epoch to civil (year, month, day) and back.  The civil
month/day extraction works inside a 400-year era (146097 days) over a
March-based year. -/

/-- Year-of-era (0..399) of a day-of-era (0..146096). -/
def yoeOf (doe : Nat) : Nat := (doe - doe/1460 + doe/36524 - doe/146096)/365

/-- First day-of-era of a year-of-era (March-based years). -/
def dstart (y : Nat) : Nat := 365*y + y/4 - y/100

/-- Shifted month index (0 = March .. 11 = February) of a day-of-March-year. -/
def mpOf (doy : Nat) : Nat := (5*doy + 2)/153

/-- Civil month (1..12) of a day-of-March-year. -/
def monthOf (doy : Nat) : Nat := if mpOf doy < 10 then mpOf doy + 3 else mpOf doy - 9

/-- Civil day-of-month (1..31) of a day-of-March-year. -/
def mdayOf (doy : Nat) : Nat := doy - (153*(mpOf doy) + 2)/5 + 1

/-- Shifted month index of a civil month. -/
def mpBack (m : Nat) : Nat := if 2 < m then m - 3 else m + 9

/-- Day-of-era of (year-of-era, civil month, civil day). -/
def doeOfCivilNat (yoe m d : Nat) : Nat := dstart yoe + ((153*(mpBack m) + 2)/5 + d - 1)

/-- Days since 1970-01-01 to civil (year, month, day), proleptic Gregorian. -/
def civilFromDays (z : Int) : Int × Nat × Nat :=
  let u := z + 719468
  let doe := (u % 146097).toNat
  let yoe := yoeOf doe
  let doy := doe - dstart yoe
  let m := monthOf doy
  let d := mdayOf doy
  (u / 146097 * 400 + yoe + (if m ≤ 2 then 1 else 0), m, d)

/-- Civil (year, month, day) to days since 1970-01-01, proleptic Gregorian. -/
def daysFromCivil (y : Int) (m d : Nat) : Int :=
  let y2 := y - (if m ≤ 2 then 1 else 0)
  y2 / 400 * 146097 + (doeOfCivilNat (y2 % 400).toNat m d : Int) - 719468

/-! ### Python `datetime.datetime` values -/

/-- A Python `datetime.datetime` value (naive or already converted): civil
date plus wall-clock time of day. -/
structure PyDateTime where
  year : Int
  month : Nat
  day : Nat
  hour : Nat
  minute : Nat
  second : Nat
  microsecond : Nat
deriving DecidableEq, Repr

/-- The instant of a datetime, as minutes since the Unix epoch (seconds and
finer are carried separately and are unaffected by whole-minute zone
offsets). -/
def epoch_minutes (dt : PyDateTime) : Int :=
  daysFromCivil dt.year dt.month dt.day * 1440 + dt.hour * 60 + dt.minute

/-- Shift a datetime by a whole number of minutes, preserving the second and
microsecond fields (this is how a fixed-offset `astimezone` acts). -/
def shiftMinutes (dt : PyDateTime) (delta : Int) : PyDateTime :=
  let t := epoch_minutes dt + delta
  let c := civilFromDays (t / 1440)
  let rem := (t % 1440).toNat
  ⟨c.1, c.2.1, c.2.2, rem / 60, rem % 60, dt.second, dt.microsecond⟩

/-- Modelled from the library behaviour of `pytz` used at
`survivor.py:168-171`: `pytz.timezone` raises `UnknownTimeZoneError` for an
unknown zone name (here: `none`); for the zones this program uses, the
zone's UTC offset in minutes on the relevant dates.  America/Lima is
UTC-5 with no daylight saving. -/
def pytzOffsetMinutes (tz_name : String) : Option Int :=
  if tz_name = "America/Lima" then some (-300)
  else if tz_name = "UTC" then some 0
  else none

/-- `local_to_utc` of `survivor.py:168-171`: localize a naive datetime in
the named zone and convert it to UTC (subtracting the zone's UTC offset
from the local wall-clock instant). -/
def local_to_utc (dt_local : PyDateTime) (tz_name : String) : Option PyDateTime :=
  (pytzOffsetMinutes tz_name).map (fun off => shiftMinutes dt_local (-off))

/-- Two zero-padded decimal digits (the behaviour of `%m`, `%d`, `%H`,
`%M`, `%S` for field values below 100). -/
def pad2 (n : Nat) : String :=
  String.mk [Nat.digitChar (n / 10 % 10), Nat.digitChar (n % 10)]

/-- Four zero-padded decimal digits (the behaviour of `%Y` for years
1..9999). -/
def pad4 (n : Nat) : String :=
  String.mk [Nat.digitChar (n / 1000 % 10), Nat.digitChar (n / 100 % 10),
    Nat.digitChar (n / 10 % 10), Nat.digitChar (n % 10)]

/-- Six zero-padded decimal digits (the behaviour of `%f`, microseconds). -/
def pad6 (n : Nat) : String :=
  String.mk [Nat.digitChar (n / 100000 % 10), Nat.digitChar (n / 10000 % 10),
    Nat.digitChar (n / 1000 % 10), Nat.digitChar (n / 100 % 10),
    Nat.digitChar (n / 10 % 10), Nat.digitChar (n % 10)]

/-- `strftime("%Y%m%d%H%M")` as used at `survivor.py:224`. -/
def fmtYYYYMMDDHHMM (dt : PyDateTime) : String :=
  pad4 dt.year.toNat ++ pad2 dt.month ++ pad2 dt.day ++ pad2 dt.hour ++ pad2 dt.minute

/-- `iso_utc` of `survivor.py:174-176`:
`strftime("%Y-%m-%dT%H:%M:%S.%fZ")`. -/
def iso_utc (dt_utc : PyDateTime) : String :=
  pad4 dt_utc.year.toNat ++ "-" ++ pad2 dt_utc.month ++ "-" ++ pad2 dt_utc.day ++ "T"
    ++ pad2 dt_utc.hour ++ ":" ++ pad2 dt_utc.minute ++ ":" ++ pad2 dt_utc.second
    ++ "." ++ pad6 dt_utc.microsecond ++ "Z"

/-! ### MD5 (`hashlib.md5(...).hexdigest()` as used at `survivor.py:225`) -/

/-- The 64 MD5 sine constants, `floor(abs(sin(i+1)) * 2^32)` (RFC 1321). -/
def md5K : List Nat := [3614090360, 3905402710, 606105819, 3250441966, 4118548399, 1200080426, 2821735955, 4249261313, 1770035416, 2336552879, 4294925233, 2304563134, 1804603682, 4254626195, 2792965006, 1236535329, 4129170786, 3225465664, 643717713, 3921069994, 3593408605, 38016083, 3634488961, 3889429448, 568446438, 3275163606, 4107603335, 1163531501, 2850285829, 4243563512, 1735328473, 2368359562, 4294588738, 2272392833, 1839030562, 4259657740, 2763975236, 1272893353, 4139469664, 3200236656, 681279174, 3936430074, 3572445317, 76029189, 3654602809, 3873151461, 530742520, 3299628645, 4096336452, 1126891415, 2878612391, 4237533241, 1700485571, 2399980690, 4293915773, 2240044497, 1873313359, 4264355552, 2734768916, 1309151649, 4149444226, 3174756917, 718787259, 3951481745]

/-- The per-round left-rotation amounts of MD5 (RFC 1321). -/
def md5S : List Nat := [7, 12, 17, 22, 7, 12, 17, 22, 7, 12, 17, 22, 7, 12, 17, 22, 5, 9, 14, 20, 5, 9, 14, 20, 5, 9, 14, 20, 5, 9, 14, 20, 4, 11, 16, 23, 4, 11, 16, 23, 4, 11, 16, 23, 4, 11, 16, 23, 6, 10, 15, 21, 6, 10, 15, 21, 6, 10, 15, 21, 6, 10, 15, 21]

/-- 32-bit left rotation on `Nat` (inputs below 2^32). -/
def rotl32 (x s : Nat) : Nat := ((x <<< s) + (x >>> (32 - s))) % 4294967296

/-- One MD5 round: state (A, B, C, D), round index `i`, message words `M`. -/
def md5Round (M : List Nat) (st : Nat × Nat × Nat × Nat) (i : Nat) : Nat × Nat × Nat × Nat :=
  let A := st.1
  let B := st.2.1
  let C := st.2.2.1
  let D := st.2.2.2
  let F :=
    if i < 16 then (B &&& C) ||| ((B ^^^ 4294967295) &&& D)
    else if i < 32 then (D &&& B) ||| ((D ^^^ 4294967295) &&& C)
    else if i < 48 then B ^^^ C ^^^ D
    else C ^^^ (B ||| (D ^^^ 4294967295))
  let g :=
    if i < 16 then i
    else if i < 32 then (5*i + 1) % 16
    else if i < 48 then (3*i + 5) % 16
    else (7*i) % 16
  let F2 := (F + A + md5K.getD i 0 + M.getD g 0) % 4294967296
  (D, (B + rotl32 F2 (md5S.getD i 0)) % 4294967296, B, C)

/-- The sixteen little-endian 32-bit words of a 64-byte chunk. -/
def md5Words (chunk : List Nat) : List Nat :=
  (List.range 16).map (fun i =>
    chunk.getD (4*i) 0 + 256 * chunk.getD (4*i+1) 0
      + 65536 * chunk.getD (4*i+2) 0 + 16777216 * chunk.getD (4*i+3) 0)

/-- MD5 compression of one 64-byte chunk into the running state. -/
def md5Compress (chunk : List Nat) (st : Nat × Nat × Nat × Nat) : Nat × Nat × Nat × Nat :=
  let r := (List.range 64).foldl (md5Round (md5Words chunk)) st
  ((st.1 + r.1) % 4294967296, (st.2.1 + r.2.1) % 4294967296,
   (st.2.2.1 + r.2.2.1) % 4294967296, (st.2.2.2 + r.2.2.2) % 4294967296)

/-- Fold the compression over the given number of 64-byte chunks. -/
def md5Chunks : Nat → List Nat → Nat × Nat × Nat × Nat → Nat × Nat × Nat × Nat
  | 0, _, st => st
  | n+1, bytes, st => md5Chunks n (bytes.drop 64) (md5Compress (bytes.take 64) st)

/-- MD5 padding: a 0x80 byte, zero bytes to 56 mod 64, then the message bit
length as a 64-bit little-endian quantity. -/
def md5PadBytes (msg : List Nat) : List Nat :=
  let L := msg.length
  let z := (119 - L % 64) % 64
  let bits := (8 * L) % 18446744073709551616
  msg ++ [128] ++ List.replicate z 0 ++
    [bits % 256, bits / 256 % 256, bits / 65536 % 256, bits / 16777216 % 256,
     bits / 4294967296 % 256, bits / 1099511627776 % 256,
     bits / 281474976710656 % 256, bits / 72057594037927936 % 256]

/-- The MD5 state after absorbing a whole message. -/
def md5Digest (msg : List Nat) : Nat × Nat × Nat × Nat :=
  md5Chunks ((md5PadBytes msg).length / 64) (md5PadBytes msg)
    (1732584193, 4023233417, 2562383102, 271733878)

/-- The eight hex characters of one state word, little-endian byte order,
each nibble rendered by `Nat.digitChar` (lowercase). -/
def wordHex (w : Nat) : List Char :=
  [Nat.digitChar (w / 16 % 16), Nat.digitChar (w % 16),
   Nat.digitChar (w / 4096 % 16), Nat.digitChar (w / 256 % 16),
   Nat.digitChar (w / 1048576 % 16), Nat.digitChar (w / 65536 % 16),
   Nat.digitChar (w / 268435456 % 16), Nat.digitChar (w / 16777216 % 16)]

/-- `hashlib.md5(bytes).hexdigest()`: the 32-character lowercase hex
rendering of the MD5 digest. -/
def md5Hex (msg : List Nat) : String :=
  String.mk (wordHex (md5Digest msg).1 ++ wordHex (md5Digest msg).2.1
    ++ wordHex (md5Digest msg).2.2.1 ++ wordHex (md5Digest msg).2.2.2)

/-- `str.encode()` for the ASCII strings this program hashes: the byte is
the code point of each character. -/
def strBytes (s : String) : List Nat := s.data.map Char.toNat

/-- The hash input `f"{home_short}-{away_short}-{start_utc.strftime('%Y%m%d%H%M')}"`
of `survivor.py:224`. -/
def eid_src (home_short away_short : String) (start_utc : PyDateTime) : String :=
  home_short ++ "-" ++ away_short ++ "-" ++ fmtYYYYMMDDHHMM start_utc

/-- The external match identifier of `survivor.py:224-225`:
`hashlib.md5(eid_src.encode()).hexdigest()`. -/
def external_id_of (home_short away_short : String) (start_utc : PyDateTime) : String :=
  md5Hex (strBytes (eid_src home_short away_short start_utc))

/-! ### Python string helpers (`str.upper`, `str.strip`, `str.split`) -/

/-- `str.upper()` on one character, for the ASCII data this program
handles: map a lowercase ASCII letter to its uppercase form. -/
def pyUpperChar (c : Char) : Char :=
  if 97 ≤ c.toNat ∧ c.toNat ≤ 122 then Char.ofNat (c.toNat - 32) else c

/-- `str.upper()` for ASCII strings. -/
def pyUpperStr (s : String) : String := String.mk (s.data.map pyUpperChar)

/-- The characters `str.strip()` removes (ASCII whitespace). -/
def isPySpace (c : Char) : Bool :=
  c = ' ' || c = '\t' || c = '\n' || c = '\r' || c = '\x0b' || c = '\x0c'

/-- `str.strip()` on a character list: drop whitespace from both ends. -/
def stripChars (l : List Char) : List Char :=
  ((l.dropWhile isPySpace).reverse.dropWhile isPySpace).reverse

/-- `str.strip()` for strings. -/
def pyStrip (s : String) : String := String.mk (stripChars s.data)

/-- `str.split(sep)` with a one-character separator: split on every
occurrence, keeping empty parts (Python semantics). -/
def splitChar (sep : Char) : List Char → List (List Char)
  | [] => [[]]
  | x :: xs =>
    if x = sep then [] :: splitChar sep xs
    else
      match splitChar sep xs with
      | [] => [[x]]
      | h :: t => (x :: h) :: t

/-- `[p.strip() for p in s.split(",") if p.strip()]` as used at
`survivor.py:199-200`. -/
def commaSplit (s : String) : List String :=
  (((splitChar ',' s.data).map (fun cs => String.mk (stripChars cs))).filter (fun p => p ≠ ""))

/-- Python falsy-chaining `a or b` for an optional string: a missing or
empty left operand falls through to the right operand. -/
def orElseStr (a : Option String) (b : String) : String :=
  match a with
  | some s => if s = "" then b else s
  | none => b

/-- Truthiness of an optional string (Python `if x:`). -/
def pyTruthy (o : Option String) : Bool :=
  match o with
  | some s => s ≠ ""
  | none => false

/-- `' ,'.join(l)` (note the source's separator is a space followed by a
comma, `survivor.py:44`). -/
def joinWith (sep : String) : List String → String
  | [] => ""
  | [x] => x
  | x :: xs => x ++ sep ++ joinWith sep xs

/-- `int(s)` for the digit strings this program parses: strip whitespace,
then accept a non-empty all-digit string.  (Python's `int` also accepts an
optional sign and underscores; the program only ever feeds it hour and
minute fields, and every rejected string leads to the same caught
`ValueError` path.) -/
def pyIntDigits (l : List Char) : Option Nat :=
  let t := stripChars l
  if t ≠ [] ∧ t.all Char.isDigit then
    some (t.foldl (fun acc c => 10*acc + (c.toNat - 48)) 0)
  else none

/-! ### Environment configuration (`survivor.py:22-44`) -/

/-- The environment values read at module load (`survivor.py:22-30`). -/
structure Config where
  base_url_env : String
  league_id : String
  username : String
  password : String
  api_token : String
deriving DecidableEq, Repr

/-- `BASE_URL = os.getenv("BASE_URL", "").rstrip("/")`. -/
def baseUrl (cfg : Config) : String :=
  String.mk (((cfg.base_url_env.data.reverse.dropWhile (fun c => c = '/'))).reverse)

/-- The list of missing-configuration entries `require_env` accumulates
(`survivor.py:35-42`). -/
def missingKeys (cfg : Config) : List String :=
  (if baseUrl cfg = "" then ["BASE_URL"] else [])
    ++ (if cfg.league_id = "" then ["LEAGUE_ID"] else [])
    ++ (if cfg.api_token = "" ∧ (cfg.username = "" ∨ cfg.password = "")
        then ["API_TOKEN o USERNAME/PASSWORD"] else [])

/-- `require_env` (`survivor.py:35-44`): raise `RuntimeError` naming every
missing key, or return unit. -/
def require_env (cfg : Config) : Except String Unit :=
  let missing := missingKeys cfg
  if missing.isEmpty then Except.ok ()
  else Except.error ("Falta " ++ joinWith " ," missing ++ " en .env")

/-! ### HTTP responses and effect events -/

/-- The JSON body of a match-creation response, as consumed at
`survivor.py:250-251` (`data.get("id") or data.get("pk") or ""`).  `none`
models a body on which `r.json()` raises. -/
structure MatchRespBody where
  id : Option String
  pk : Option String
deriving DecidableEq, Repr

/-- An HTTP response to a match-creation POST. -/
structure HttpResp where
  status : Nat
  body : Option MatchRespBody
deriving DecidableEq, Repr

/-- The JSON body of a login response (`survivor.py:71-77`). -/
structure LoginBody where
  access_token : Option String
  access : Option String
  token : Option String
deriving DecidableEq, Repr

/-- An HTTP response to the login POST. -/
structure LoginResp where
  status : Nat
  body : Option LoginBody
deriving DecidableEq, Repr

/-- The row shape of the `matches` table (`survivor.py:93-104`). -/
structure MatchRow where
  api_id : String
  external_id : String
  home : String
  away : String
  start_time_utc : String
  week : Int
deriving DecidableEq, Repr

/-- The projection returned by `load_matches_by_week`
(`SELECT api_id, home, away, start_time_utc`, `survivor.py:129`). -/
structure WeekRow where
  api_id : String
  home : String
  away : String
  start_time_utc : String
deriving DecidableEq, Repr

/-- The payload POSTed to `/matches/` (`survivor.py:227-235`). -/
structure MatchPayload where
  external_id : String
  league_id : String
  home_id : String
  away_id : String
  season : String
  week : Int
  start_time : String
deriving DecidableEq, Repr

/-- The payload POSTed to `/rooms/` (`survivor.py:301-317`). -/
structure RoomPayload where
  name : String
  description : String
  player_limit : Int
  coins : Int
  permission : String
  password : Option String
  image_url : String
  prize_type : String
  percentage : Int
  fixed_amount : Int
  reward_description : String
  top_winners : Int
  league_id : String
  start_week : Int
  end_week : Int
deriving DecidableEq, Repr

/-- Observable side effects of a command run. -/
inductive Event where
  | httpPostLogin : Event
  | httpPostMatch (payload : MatchPayload) : Event
  | httpPostRoom (payload : RoomPayload) : Event
  | httpPatchResults (week : Int) : Event
  | dbWrite (row : MatchRow) : Event
  | fileWrite : Event
  | echoPayload (payload : MatchPayload) : Event
  | echoRoom (payload : RoomPayload) : Event
  | echoErr (msg : String) : Event
  | echoSummary (created errors : Nat) : Event
  | echoOther (msg : String) : Event
deriving DecidableEq, Repr

/-- Whether an event is a network call. -/
def Event.isNetwork : Event → Bool
  | .httpPostLogin => true
  | .httpPostMatch _ => true
  | .httpPostRoom _ => true
  | .httpPatchResults _ => true
  | _ => false

/-- How a command run terminates: normal return (exit status 0), an
uncaught `RuntimeError` from `require_env` (the spec's
`ConfigurationError`; exit status 1), another uncaught fatal error (exit
status 1), `typer.BadParameter` (exit status 2), or `typer.Exit(code=1)`. -/
inductive CmdExit where
  | ok : CmdExit
  | configError (msg : String) : CmdExit
  | fatalError (msg : String) : CmdExit
  | badParameter (msg : String) : CmdExit
  | exitOne : CmdExit
deriving DecidableEq, Repr

/-- The process exit status of a command termination. -/
def CmdExit.code : CmdExit → Nat
  | .ok => 0
  | .configError _ => 1
  | .fatalError _ => 1
  | .badParameter _ => 2
  | .exitOne => 1

/-- `login_and_token` (`survivor.py:47-80`): a pre-provisioned token is
used directly with no network call; otherwise a POST to `/auth/login/`,
`raise_for_status`, and falsy-chained token extraction. -/
def login_and_token (cfg : Config) (resp : LoginResp) : Except String String × List Event :=
  if cfg.api_token ≠ "" then (Except.ok cfg.api_token, [])
  else
    let ev := [Event.httpPostLogin]
    if 400 ≤ resp.status then (Except.error "Login failed", ev)
    else
      match resp.body with
      | none => (Except.error "invalid JSON in login response", ev)
      | some b =>
        let t := orElseStr b.access_token (orElseStr b.access (orElseStr b.token ""))
        if t = "" then (Except.error "Login OK pero no encontré token en respuesta", ev)
        else (Except.ok t, ev)

/-! ### Local match store (`survivor.py:90-134`) -/

/-- `save_match` (`survivor.py:109-121`): `INSERT OR REPLACE` keyed on the
primary key `api_id` — any existing row with the same key is replaced by
the new row. -/
def save_match (db : List MatchRow) (row : MatchRow) : List MatchRow :=
  (db.filter (fun r => r.api_id ≠ row.api_id)) ++ [row]

/-- Row order used by `ORDER BY start_time_utc` (SQLite TEXT comparison;
for the ASCII ISO strings stored here this is the string order). -/
def rowLe (a b : MatchRow) : Prop := a.start_time_utc ≤ b.start_time_utc

instance : DecidableRel rowLe := fun a b => inferInstanceAs (Decidable (a.start_time_utc ≤ b.start_time_utc))

instance : IsTotal MatchRow rowLe := ⟨fun a b => le_total a.start_time_utc b.start_time_utc⟩

instance : IsTrans MatchRow rowLe := ⟨fun _ _ _ h1 h2 => le_trans h1 h2⟩

/-- `load_matches_by_week` (`survivor.py:124-134`):
`SELECT api_id, home, away, start_time_utc FROM matches WHERE week=?
ORDER BY start_time_utc`. -/
def load_matches_by_week (db : List MatchRow) (week : Int) : List WeekRow :=
  (List.insertionSort rowLe (db.filter (fun r => r.week = week))).map
    (fun r => ⟨r.api_id, r.home, r.away, r.start_time_utc⟩)

/-! ### Teams index (`survivor.py:139-160`) -/

/-- One record of the Django-style `teams.json` fixture: a primary key and
a `fields` object carrying `short_name` and `name`. -/
structure TeamRowJson where
  pk : Option String
  short_name : Option String
  name : Option String
deriving DecidableEq, Repr

/-- Python dict assignment `m[k] = v`: replace the value at an existing
key, otherwise append the new binding. -/
def dictInsert (m : List (String × String)) (k v : String) : List (String × String) :=
  if m.any (fun p => p.1 = k) then m.map (fun p => if p.1 = k then (k, v) else p)
  else m ++ [(k, v)]

/-- Python dict lookup returning presence or absence. -/
def dictFind (m : List (String × String)) (k : String) : Option String :=
  (m.find? (fun p => p.1 = k)).map (fun p => p.2)

/-- One iteration of the `load_teams_index` loop body
(`survivor.py:151-159`). -/
def teamsIndexStep (acc : List (String × String) × List (String × String))
    (row : TeamRowJson) : List (String × String) × List (String × String) :=
  let short := pyUpperStr (pyStrip (orElseStr row.short_name ""))
  let name := pyStrip (orElseStr row.name "")
  let acc1 := if short ≠ "" ∧ pyTruthy row.pk then
      dictInsert acc.1 short (row.pk.getD "") else acc.1
  let acc2 := if name ≠ "" ∧ pyTruthy row.pk then
      dictInsert acc.2 name (row.pk.getD "") else acc.2
  (acc1, acc2)

/-- `load_teams_index` (`survivor.py:139-160`): build the
short-code-to-pk and full-name-to-pk mappings. -/
def load_teams_index (rows : List TeamRowJson) :
    List (String × String) × List (String × String) :=
  rows.foldl teamsIndexStep ([], [])

/-! ### Parsing helpers of the match-creation workflow -/

/-- `home_short, away_short = [x.strip().upper() for x in pair.split("@")]`
(`survivor.py:211`); a part count other than two raises the unpacking
`ValueError` (caught by the per-match handler). -/
def parse_pair (pair : String) : Except String (String × String) :=
  match (splitChar '@' pair.data).map (fun cs => String.mk ((stripChars cs).map pyUpperChar)) with
  | [h, a] => Except.ok (h, a)
  | _ => Except.error "ValueError: values to unpack"

/-- `parse_time_hhmm` (`survivor.py:163-165`) plus the range validation
`datetime.time` performs: split on a colon into exactly two parts, parse
both as integers, require a valid hour and minute. -/
def parse_time_hhmm (s : String) : Except String (Nat × Nat) :=
  match splitChar ':' s.data with
  | [hh, mm] =>
    match pyIntDigits hh, pyIntDigits mm with
    | some h, some m =>
      if h ≤ 23 ∧ m ≤ 59 then Except.ok (h, m)
      else Except.error "ValueError: hour/minute out of range"
    | _, _ => Except.error "ValueError: invalid literal for int"
  | _ => Except.error "ValueError: values to unpack"

/-- Leap year test of the Gregorian calendar (`calendar.isleap`). -/
def isLeapYear (y : Int) : Bool := y % 4 = 0 && (y % 100 ≠ 0 || y % 400 = 0)

/-- Days in a month of a year. -/
def daysInMonth (y : Int) (m : Nat) : Nat :=
  if m = 2 then (if isLeapYear y then 29 else 28)
  else if m = 4 ∨ m = 6 ∨ m = 9 ∨ m = 11 then 30
  else 31

/-- `date.fromisoformat` (`survivor.py:218`): strict `YYYY-MM-DD` with a
calendar validity check (`ValueError` otherwise, caught by the per-match
handler). -/
def dateFromIso (s : String) : Except String (Int × Nat × Nat) :=
  match splitChar '-' s.data with
  | [ys, ms, ds] =>
    if ys.length = 4 ∧ ms.length = 2 ∧ ds.length = 2
        ∧ ys.all Char.isDigit ∧ ms.all Char.isDigit ∧ ds.all Char.isDigit then
      let y : Int := (ys.foldl (fun acc c => 10*acc + (c.toNat - 48)) 0 : Nat)
      let m := ms.foldl (fun acc c => 10*acc + (c.toNat - 48)) 0
      let d := ds.foldl (fun acc c => 10*acc + (c.toNat - 48)) 0
      if 1 ≤ y ∧ 1 ≤ m ∧ m ≤ 12 ∧ 1 ≤ d ∧ d ≤ daysInMonth y m then
        Except.ok (y, m, d)
      else Except.error "ValueError: invalid date"
    else Except.error "ValueError: invalid isoformat string"
  | _ => Except.error "ValueError: invalid isoformat string"

/-- The data computed for one match before any I/O: the payload together
with the uppercased short codes that `save_match` later stores. -/
structure BuiltMatch where
  payload : MatchPayload
  home_short : String
  away_short : String
deriving DecidableEq, Repr

/-- The pure part of one iteration of the `create-matches` loop body
(`survivor.py:211-235`): parse the pair, look both codes up (raising the
`ValueError` that names the pair when either is unknown), parse the local
date and time, convert to UTC, derive the external id and assemble the
payload. -/
def build_match_payload (league_id : String) (by_short : List (String × String))
    (season : String) (week : Int) (date_str tz_name pair hhmm : String) :
    Except String BuiltMatch :=
  match parse_pair pair with
  | Except.error e => Except.error e
  | Except.ok (home_short, away_short) =>
    match dictFind by_short home_short, dictFind by_short away_short with
    | some home_id, some away_id =>
      match dateFromIso date_str with
      | Except.error e => Except.error e
      | Except.ok (y, mo, da) =>
        match parse_time_hhmm hhmm with
        | Except.error e => Except.error e
        | Except.ok (hh, mi) =>
          match local_to_utc ⟨y, mo, da, hh, mi, 0, 0⟩ tz_name with
          | none => Except.error ("UnknownTimeZoneError: " ++ tz_name)
          | some start_utc =>
            Except.ok ⟨⟨external_id_of home_short away_short start_utc, league_id,
              home_id, away_id, season, week, iso_utc start_utc⟩, home_short, away_short⟩
    | _, _ => Except.error ("Equipo no encontrado en teams.json: " ++ pair)

/-- The outcome of one iteration of the `create-matches` loop. -/
structure StepResult where
  events : List Event
  db : List MatchRow
  created : Nat
  errors : Nat
deriving Repr

/-- One full iteration of the `create-matches` loop body
(`survivor.py:209-267`): any error is caught, echoed and counted; in
dry-run mode the payload is only echoed; otherwise the payload is POSTed,
a non-2xx response is echoed and counted, and a 2xx response carrying a
non-empty id leads to `save_match`. -/
def create_one_match (league_id : String) (by_short : List (String × String))
    (season : String) (week : Int) (date_str tz_name : String) (dry_run : Bool)
    (db : List MatchRow) (resp : HttpResp) (pair hhmm : String) : StepResult :=
  match build_match_payload league_id by_short season week date_str tz_name pair hhmm with
  | Except.error e => ⟨[Event.echoErr ("[ERR] " ++ e)], db, 0, 1⟩
  | Except.ok bm =>
    let ev0 := [Event.echoPayload bm.payload]
    if dry_run then ⟨ev0, db, 1, 0⟩
    else
      let ev1 := ev0 ++ [Event.httpPostMatch bm.payload]
      if resp.status ≠ 200 ∧ resp.status ≠ 201 then
        ⟨ev1 ++ [Event.echoErr "[ERR] non-2xx status"], db, 0, 1⟩
      else
        match resp.body with
        | none => ⟨ev1 ++ [Event.echoErr "[ERR] invalid JSON in response"], db, 0, 1⟩
        | some body =>
          let api_id := orElseStr body.id (orElseStr body.pk "")
          if api_id = "" then
            ⟨ev1 ++ [Event.echoErr "[WARN] Respuesta sin id"], db, 1, 0⟩
          else
            let row : MatchRow := ⟨api_id, bm.payload.external_id, bm.home_short,
              bm.away_short, bm.payload.start_time, week⟩
            ⟨ev1 ++ [Event.dbWrite row], save_match db row, 1, 0⟩

/-- The `create-matches` loop (`survivor.py:207-267`), folding the
per-match step over the zipped pair/time lists; `resps i` is the HTTP
response to the i-th POST. -/
def matches_loop (league_id : String) (by_short : List (String × String))
    (season : String) (week : Int) (date_str tz_name : String) (dry_run : Bool)
    (resps : Nat → HttpResp) :
    List (String × String) → Nat → Nat → Nat → List Event → List MatchRow →
    Nat × Nat × List Event × List MatchRow
  | [], _, created, errors, ev, db => (created, errors, ev, db)
  | (pair, hhmm) :: rest, i, created, errors, ev, db =>
    let r := create_one_match league_id by_short season week date_str tz_name dry_run db
      (resps i) pair hhmm
    matches_loop league_id by_short season week date_str tz_name dry_run resps rest
      (i+1) (created + r.created) (errors + r.errors) (ev ++ r.events) r.db

/-- The external collaborators of one `create-matches` run: the login
response, the per-match POST responses, the teams fixture and the initial
database contents. -/
structure World where
  loginResp : LoginResp
  resps : Nat → HttpResp
  teams : List TeamRowJson
  db0 : List MatchRow

/-- The `create-matches` command (`survivor.py:181-269`): `require_env`,
then `auth_headers` (a network login unless a token is configured), then
`load_teams_index`, the pair/time zip-length check (`typer.BadParameter`),
the match loop, and the final summary echo.  The function returns
normally after the loop, so the exit status is 0 regardless of the error
count. -/
def create_matches_run (cfg : Config) (wld : World) (season : String) (week : Int)
    (date_str times pairs tz_name : String) (dry_run : Bool) :
    CmdExit × List Event × List MatchRow :=
  match require_env cfg with
  | Except.error msg => (CmdExit.configError msg, [], wld.db0)
  | Except.ok _ =>
    match login_and_token cfg wld.loginResp with
    | (Except.error msg, ev) => (CmdExit.fatalError msg, ev, wld.db0)
    | (Except.ok _, ev) =>
      let by_short := (load_teams_index wld.teams).1
      let pair_list := commaSplit pairs
      let time_list := commaSplit times
      if pair_list.length ≠ time_list.length then
        (CmdExit.badParameter "pairs y times deben tener el mismo número de items.", ev, wld.db0)
      else
        let r := matches_loop cfg.league_id by_short season week date_str tz_name dry_run
          wld.resps (pair_list.zip time_list) 1 0 0 [] wld.db0
        (CmdExit.ok, ev ++ r.2.2.1 ++ [Event.echoSummary r.1 r.2.1], r.2.2.2)

/-! ### Room creation (`survivor.py:274-326`) -/

/-- The room payload assembly of `create_room` (`survivor.py:297-317`): a
permission that upper-cases to `PUBLIC` forces the password to `null`;
otherwise the caller-supplied password is passed through unchanged.  The
submitted permission is always upper-cased. -/
def room_payload (league_id name description : String) (player_limit coins : Int)
    (permission : String) (password : Option String) (image_url prize_type : String)
    (percentage fixed_amount : Int) (reward_description : String) (top_winners : Int)
    (start_week end_week : Int) : RoomPayload :=
  let pw := if pyUpperStr permission = "PUBLIC" then none else password
  ⟨name, description, player_limit, coins, pyUpperStr permission, pw, image_url,
    prize_type, percentage, fixed_amount, reward_description, top_winners, league_id,
    start_week, end_week⟩

/-- The `create-room` command (`survivor.py:274-326`): `require_env`,
auth, payload echo, POST, and `typer.Exit(code=1)` on a non-2xx
response. -/
def create_room_run (cfg : Config) (loginResp : LoginResp) (roomStatus : Nat)
    (name description : String) (player_limit coins : Int) (permission : String)
    (password : Option String) (image_url prize_type : String)
    (percentage fixed_amount : Int) (reward_description : String) (top_winners : Int)
    (start_week end_week : Int) : CmdExit × List Event :=
  match require_env cfg with
  | Except.error msg => (CmdExit.configError msg, [])
  | Except.ok _ =>
    match login_and_token cfg loginResp with
    | (Except.error msg, ev) => (CmdExit.fatalError msg, ev)
    | (Except.ok _, ev) =>
      let payload := room_payload cfg.league_id name description player_limit coins
        permission password image_url prize_type percentage fixed_amount
        reward_description top_winners start_week end_week
      let ev2 := ev ++ [Event.echoRoom payload, Event.httpPostRoom payload]
      if roomStatus ≠ 200 ∧ roomStatus ≠ 201 then
        (CmdExit.exitOne, ev2 ++ [Event.echoErr "[ERR] non-2xx status"])
      else
        (CmdExit.ok, ev2 ++ [Event.echoOther "Room creada"])

/-! ### Results commands (`survivor.py:331-378`) -/

/-- The `dump-week-template` command (`survivor.py:331-354`): read the
local store, exit 1 when the week has no rows, otherwise write the
template file.  It never touches the configuration or the network. -/
def dump_week_template_run (db : List MatchRow) (week : Int) : CmdExit × List Event :=
  let weekRows := load_matches_by_week db week
  if weekRows.isEmpty then
    (CmdExit.exitOne, [Event.echoErr "No hay partidos guardados para la semana"])
  else
    (CmdExit.ok, [Event.fileWrite, Event.echoOther "Plantilla creada"])

/-- The `set-week-results` command (`survivor.py:357-378`): `require_env`,
auth, a PATCH to the results endpoint, and `typer.Exit(code=1)` on a
non-2xx response. -/
def set_week_results_run (cfg : Config) (loginResp : LoginResp) (patchStatus : Nat)
    (week : Int) : CmdExit × List Event :=
  match require_env cfg with
  | Except.error msg => (CmdExit.configError msg, [])
  | Except.ok _ =>
    match login_and_token cfg loginResp with
    | (Except.error msg, ev) => (CmdExit.fatalError msg, ev)
    | (Except.ok _, ev) =>
      let ev2 := ev ++ [Event.httpPatchResults week]
      if patchStatus ≠ 200 ∧ patchStatus ≠ 201 then
        (CmdExit.exitOne, ev2 ++ [Event.echoErr "[ERR] non-2xx status"])
      else
        (CmdExit.ok, ev2 ++ [Event.echoOther "Resultados aplicados"])

/-! ### Reconciliation workflow (spec §4.6, §3)

Modelled from the spec: the repository's reconciliation workflow (the
Room records with their `finished` flag, the readiness gate, and the
per-week results submission loop) is not part of `src/`; only the spec
describes it.  The model below follows the spec's words: a Room carries a
kickoff instant (epoch seconds), an ordered collection of weeks of match
identifiers and a `finished` flag; reconciliation skips a finished room
outright, skips a room whose kickoff-minus-margin has not yet elapsed,
and otherwise submits one results request per week, marking the room
finished only when every week succeeded. -/

/-- Modelled from the spec: a Room record of the Local State Store
(spec §3). -/
structure Room where
  room_id : String
  league_id : String
  kickoff_epoch : Int
  weeks : List (List String)
  finished : Bool
deriving DecidableEq, Repr

/-- Modelled from the spec: submit results for the weeks of one due room
in order; `weekOk i` tells whether the i-th week's submission returned a
2xx status.  Processing stops at the first failure and the room is marked
finished only when every week succeeded (spec §4.6). -/
def submitWeeks (weekOk : Nat → Bool) : List (List String) → Nat → Bool × List Event
  | [], _ => (true, [])
  | _ :: rest, i =>
    if weekOk i then
      let r := submitWeeks weekOk rest (i+1)
      (r.1, Event.httpPatchResults (i : Int) :: r.2)
    else (false, [Event.httpPatchResults (i : Int)])

/-- Modelled from the spec: reconciliation of a single Room (spec §4.6):
skip it outright when `finished` is already true (no network calls, no
state change); skip it when the readiness gate `kickoff - margin` is
still in the future; otherwise submit each week's results in order and
set `finished := true` exactly when every week succeeded. -/
def reconcileRoom (now margin : Int) (weekOk : Nat → Bool) (room : Room) :
    Room × List Event :=
  if room.finished then (room, [])
  else if now < room.kickoff_epoch - margin then (room, [])
  else
    let r := submitWeeks weekOk room.weeks 0
    (if r.1 then { room with finished := true } else room, r.2)

/-- Modelled from the spec: one reconciliation run over the whole state
file (spec §4.4, §4.6): every room is reconciled and the store is written
back. -/
def reconcileStore (now margin : Int) (weekOk : String → Nat → Bool)
    (store : List Room) : List Room × List Event :=
  (store.map (fun room => (reconcileRoom now margin (weekOk room.room_id) room).1),
   store.foldr (fun room acc => (reconcileRoom now margin (weekOk room.room_id) room).2 ++ acc) [])

/-! ## Theorems

### Correctness of the embedded calendar arithmetic -/

set_option maxRecDepth 4000 in
theorem yoe_endpoints : ∀ y, y < 400 →
    (yoeOf (dstart y) = y ∧ yoeOf (dstart (y+1) - 1) = y) := by decide

set_option maxRecDepth 4000 in
theorem month_roundtrip : ∀ doy, doy < 366 →
    ((153*(mpBack (monthOf doy)) + 2)/5 + mdayOf doy - 1 = doy
      ∧ 1 ≤ monthOf doy ∧ monthOf doy ≤ 12 ∧ 1 ≤ mdayOf doy ∧ mdayOf doy ≤ 31) := by decide

theorem yoe_mono (a b : Nat) (h : a ≤ b) : yoeOf a ≤ yoeOf b :=
  Nat.div_le_div_right (by omega)

theorem yoe_top : yoeOf 146096 = 399 := by decide

theorem dstart_zero : dstart 0 = 0 := by decide

theorem yoe_bracket (doe : Nat) (h : doe < 146097) :
    dstart (yoeOf doe) ≤ doe ∧ doe - dstart (yoeOf doe) < 366 ∧ yoeOf doe < 400 := by
  have h399 : yoeOf doe ≤ 399 := by
    have h1 := yoe_mono doe 146096 (by omega)
    rw [yoe_top] at h1
    exact h1
  have hlow : dstart (yoeOf doe) ≤ doe := by
    by_contra hlt
    push_neg at hlt
    rcases Nat.eq_zero_or_pos (yoeOf doe) with h0 | hpos
    · rw [h0, dstart_zero] at hlt; omega
    · have hy1 : yoeOf doe - 1 < 400 := by omega
      have hep := (yoe_endpoints (yoeOf doe - 1) hy1).2
      have hsub : yoeOf doe - 1 + 1 = yoeOf doe := by omega
      rw [hsub] at hep
      have hmono := yoe_mono doe (dstart (yoeOf doe) - 1) (by omega)
      omega
  refine ⟨hlow, ?_, by omega⟩
  rcases Nat.lt_or_ge (yoeOf doe) 399 with hlt399 | he399
  · have hup : doe < dstart (yoeOf doe + 1) := by
      by_contra hge
      push_neg at hge
      have hmono := yoe_mono (dstart (yoeOf doe + 1)) doe hge
      have hep := (yoe_endpoints (yoeOf doe + 1) (by omega)).1
      omega
    have : dstart (yoeOf doe + 1) ≤ dstart (yoeOf doe) + 366 := by
      unfold dstart; omega
    omega
  · have he : yoeOf doe = 399 := by omega
    have h399v : dstart 399 = 145731 := by decide
    rw [he]
    omega

theorem nat_roundtrip (doe : Nat) (h : doe < 146097) :
    doeOfCivilNat (yoeOf doe) (monthOf (doe - dstart (yoeOf doe)))
        (mdayOf (doe - dstart (yoeOf doe))) = doe
      ∧ 1 ≤ monthOf (doe - dstart (yoeOf doe)) ∧ monthOf (doe - dstart (yoeOf doe)) ≤ 12
      ∧ 1 ≤ mdayOf (doe - dstart (yoeOf doe)) ∧ mdayOf (doe - dstart (yoeOf doe)) ≤ 31
      ∧ yoeOf doe < 400 := by
  obtain ⟨hlow, hup, h400⟩ := yoe_bracket doe h
  obtain ⟨heq, hm1, hm2, hd1, hd2⟩ := month_roundtrip (doe - dstart (yoeOf doe)) hup
  refine ⟨?_, hm1, hm2, hd1, hd2, h400⟩
  unfold doeOfCivilNat
  omega

theorem days_roundtrip0 (doe yoe m d : Nat) (era : Int)
    (hY : yoeOf doe = yoe) (hM : monthOf (doe - dstart yoe) = m)
    (hD : mdayOf (doe - dstart yoe) = d) (hdoe : doe < 146097) :
    daysFromCivil (era * 400 + (yoe : Int) + (if m ≤ 2 then 1 else 0)) m d
      = era * 146097 + (doe : Int) - 719468 := by
  subst hY
  subst hM
  subst hD
  obtain ⟨heq, hm1, hm2, hd1, hd2, h400⟩ := nat_roundtrip doe hdoe
  unfold daysFromCivil
  dsimp only
  split_ifs with hif
  · have h5 : ((era * 400 + (yoeOf doe : Int) + 1 - 1) % 400).toNat = yoeOf doe := by omega
    have h6 : (era * 400 + (yoeOf doe : Int) + 1 - 1) / 400 = era := by omega
    rw [h5, h6, heq]
  · have h5 : ((era * 400 + (yoeOf doe : Int) + 0 - 0) % 400).toNat = yoeOf doe := by omega
    have h6 : (era * 400 + (yoeOf doe : Int) + 0 - 0) / 400 = era := by omega
    rw [h5, h6, heq]

theorem days_roundtrip (z : Int) :
    daysFromCivil (civilFromDays z).1 (civilFromDays z).2.1 (civilFromDays z).2.2 = z := by
  simp only [civilFromDays]
  rw [days_roundtrip0 (((z + 719468) % 146097).toNat) _ _ _ _ rfl rfl rfl (by omega)]
  omega

theorem epoch_minutes_shift (dt : PyDateTime) (delta : Int) :
    epoch_minutes (shiftMinutes dt delta) = epoch_minutes dt + delta := by
  unfold shiftMinutes
  dsimp only
  conv_lhs => rw [epoch_minutes]
  dsimp only
  rw [days_roundtrip]
  omega

/-! ### Digit and hex-rendering helpers -/

theorem digitChar_hex : ∀ k, k < 16 → Nat.digitChar k ∈ ("0123456789abcdef").data := by decide

theorem digitChar_digit : ∀ k, k < 10 → (Nat.digitChar k).isDigit = true := by decide

theorem wordHex_hex (w : Nat) : ∀ c ∈ wordHex w, c ∈ ("0123456789abcdef").data := by
  intro c hc
  simp only [wordHex, List.mem_cons, List.not_mem_nil, or_false] at hc
  rcases hc with h|h|h|h|h|h|h|h <;>
    (subst h; exact digitChar_hex _ (Nat.mod_lt _ (by norm_num)))

theorem md5Hex_length (msg : List Nat) : (md5Hex msg).length = 32 := rfl

theorem md5Hex_chars (msg : List Nat) :
    ∀ c ∈ (md5Hex msg).data, c ∈ ("0123456789abcdef").data := by
  intro c hc
  dsimp only [md5Hex] at hc
  simp only [List.mem_append] at hc
  rcases hc with ((h|h)|h)|h <;> exact wordHex_hex _ c h

theorem pad6_length (n : Nat) : (pad6 n).length = 6 := rfl

theorem pad6_digits (n : Nat) : ∀ c ∈ (pad6 n).data, c.isDigit = true := by
  intro c hc
  dsimp only [pad6] at hc
  simp only [List.mem_cons, List.not_mem_nil, or_false] at hc
  rcases hc with h|h|h|h|h|h <;>
    (subst h; exact digitChar_digit _ (Nat.mod_lt _ (by norm_num)))

/-! ### Claim theorems: C1 and C2 -/

set_option maxRecDepth 100000 in
/-- Claim C1: for every pair of team short codes and every UTC kickoff
instant, the external identifier is the MD5 hex digest of
"HOME-AWAY-YYYYMMDDHHMM" (minute resolution; the second and microsecond
fields do not influence it), is exactly 32 lowercase hexadecimal
characters, and on the concrete scenario home="BUF", away="MIA", kickoff
2025-09-08T22:55:00Z it equals md5("BUF-MIA-202509082255") (whose digest
is the pinned constant below).  Determinism across re-computation is
inherent: `external_id_of` is a pure function of the triple. -/
theorem c1_external_id_generator :
    (∀ h a k, external_id_of h a k
        = md5Hex (strBytes (h ++ "-" ++ a ++ "-" ++ fmtYYYYMMDDHHMM k)))
    ∧ (∀ h a k, (external_id_of h a k).length = 32
        ∧ ∀ c ∈ (external_id_of h a k).data, c ∈ ("0123456789abcdef").data)
    ∧ (∀ h a k k2 : _, ∀ _ : PyDateTime.year k = PyDateTime.year k2,
        PyDateTime.month k = PyDateTime.month k2 → PyDateTime.day k = PyDateTime.day k2 →
        PyDateTime.hour k = PyDateTime.hour k2 → PyDateTime.minute k = PyDateTime.minute k2 →
        external_id_of h a k = external_id_of h a k2)
    ∧ external_id_of "BUF" "MIA" ⟨2025, 9, 8, 22, 55, 0, 0⟩
        = md5Hex (strBytes "BUF-MIA-202509082255")
    ∧ external_id_of "BUF" "MIA" ⟨2025, 9, 8, 22, 55, 0, 0⟩
        = "8eed01d1411d364d4ab28f406971a29f" := by
  refine ⟨fun h a k => rfl, fun h a k => ⟨md5Hex_length _, md5Hex_chars _⟩, ?_, ?_, ?_⟩
  · intro h a k k2 hy hm hd hh hmin
    simp only [external_id_of, eid_src, fmtYYYYMMDDHHMM, hy, hm, hd, hh, hmin]
  · exact congrArg (fun s => md5Hex (strBytes s)) (by decide)
  · decide

/-- Witness for C1: the minute-truncation conjunct applied at a concrete
pair of instants differing only in seconds and microseconds. -/
theorem c1_external_id_generator_witness :
    external_id_of "A" "B" ⟨2025, 1, 1, 0, 0, 0, 0⟩
      = external_id_of "A" "B" ⟨2025, 1, 1, 0, 0, 30, 500⟩ :=
  c1_external_id_generator.2.2.1 "A" "B" ⟨2025, 1, 1, 0, 0, 0, 0⟩ ⟨2025, 1, 1, 0, 0, 30, 500⟩
    rfl rfl rfl rfl rfl

/-- Claim C2: for every local datetime and every known zone, the Time
Normalizer produces the instant shifted by exactly the zone's UTC offset
(seconds and microseconds preserved), the serialization always carries a
six-digit fractional-second field of decimal digits and a literal "Z"
suffix, and the concrete scenario local 2025-09-08 17:55 in America/Lima
serializes to "2025-09-08T22:55:00.000000Z". -/
theorem c2_time_normalizer :
    (∀ dt tz off, pytzOffsetMinutes tz = some off →
       ∃ u, local_to_utc dt tz = some u
         ∧ epoch_minutes u = epoch_minutes dt - off
         ∧ PyDateTime.second u = PyDateTime.second dt
         ∧ PyDateTime.microsecond u = PyDateTime.microsecond dt)
    ∧ (∀ dt_utc, iso_utc dt_utc
         = (pad4 (PyDateTime.year dt_utc).toNat ++ "-" ++ pad2 (PyDateTime.month dt_utc)
            ++ "-" ++ pad2 (PyDateTime.day dt_utc) ++ "T" ++ pad2 (PyDateTime.hour dt_utc)
            ++ ":" ++ pad2 (PyDateTime.minute dt_utc) ++ ":" ++ pad2 (PyDateTime.second dt_utc))
            ++ "." ++ pad6 (PyDateTime.microsecond dt_utc) ++ "Z"
         ∧ (pad6 (PyDateTime.microsecond dt_utc)).length = 6
         ∧ ∀ c ∈ (pad6 (PyDateTime.microsecond dt_utc)).data, c.isDigit = true)
    ∧ (local_to_utc ⟨2025, 9, 8, 17, 55, 0, 0⟩ "America/Lima").map iso_utc
        = some "2025-09-08T22:55:00.000000Z" := by
  refine ⟨?_, ?_, by decide⟩
  · intro dt tz off h
    refine ⟨shiftMinutes dt (-off), by simp [local_to_utc, h], ?_, rfl, rfl⟩
    rw [epoch_minutes_shift]
    ring
  · intro dt_utc
    refine ⟨?_, pad6_length _, pad6_digits _⟩
    simp only [iso_utc, String.append_assoc]

/-- Witness for C2: the offset conjunct applied at the Lima scenario. -/
theorem c2_time_normalizer_witness :
    ∃ u, local_to_utc ⟨2025, 9, 8, 17, 55, 0, 0⟩ "America/Lima" = some u
      ∧ epoch_minutes u = epoch_minutes ⟨2025, 9, 8, 17, 55, 0, 0⟩ - (-300)
      ∧ PyDateTime.second u = 0 ∧ PyDateTime.microsecond u = 0 :=
  c2_time_normalizer.1 ⟨2025, 9, 8, 17, 55, 0, 0⟩ "America/Lima" (-300) (by decide)

/-! ### Character-level facts about the Python string helpers -/

theorem char_ofNat_toNat (n : Nat) (h1 : n < 55296) : (Char.ofNat n).toNat = n := by
  have hv : n.isValidChar := Or.inl h1
  unfold Char.ofNat
  rw [dif_pos hv]
  rfl

theorem char_eq_iff_toNat (c d : Char) : c = d ↔ c.toNat = d.toNat := by
  constructor
  · intro h; rw [h]
  · intro h
    apply Char.eq_of_val_eq
    apply UInt32.eq_of_toBitVec_eq
    apply BitVec.eq_of_toNat_eq
    exact h

theorem pyUpperChar_toNat (c : Char) :
    (pyUpperChar c).toNat
      = if 97 ≤ c.toNat ∧ c.toNat ≤ 122 then c.toNat - 32 else c.toNat := by
  unfold pyUpperChar
  split_ifs with h
  · exact char_ofNat_toNat _ (by omega)
  · rfl

theorem pyUpperChar_idem (c : Char) : pyUpperChar (pyUpperChar c) = pyUpperChar c := by
  rw [char_eq_iff_toNat, pyUpperChar_toNat (pyUpperChar c), pyUpperChar_toNat c]
  split_ifs <;> omega

theorem pyUpperChar_at_iff (c : Char) : pyUpperChar c = '@' ↔ c = '@' := by
  rw [char_eq_iff_toNat, char_eq_iff_toNat, pyUpperChar_toNat,
    show ('@').toNat = 64 from rfl]
  split_ifs <;> omega

theorem isPySpace_iff (c : Char) :
    isPySpace c = true
      ↔ (c.toNat = 32 ∨ c.toNat = 9 ∨ c.toNat = 10 ∨ c.toNat = 13
          ∨ c.toNat = 11 ∨ c.toNat = 12) := by
  unfold isPySpace
  simp only [Bool.or_eq_true, decide_eq_true_eq, char_eq_iff_toNat,
    show (' ').toNat = 32 from rfl, show ('\t').toNat = 9 from rfl,
    show ('\n').toNat = 10 from rfl, show ('\r').toNat = 13 from rfl,
    show ('\x0b').toNat = 11 from rfl, show ('\x0c').toNat = 12 from rfl]
  tauto

theorem isPySpace_pyUpperChar (c : Char) : isPySpace (pyUpperChar c) = isPySpace c := by
  have h1 := pyUpperChar_toNat c
  have hiff : (isPySpace (pyUpperChar c) = true) ↔ (isPySpace c = true) := by
    rw [isPySpace_iff, isPySpace_iff, h1]
    split_ifs <;> omega
  cases hA : isPySpace (pyUpperChar c) <;> cases hB : isPySpace c <;> simp_all

theorem dropWhile_map_upper (lc : List Char) :
    List.dropWhile isPySpace (lc.map pyUpperChar)
      = (lc.dropWhile isPySpace).map pyUpperChar := by
  induction lc with
  | nil => rfl
  | cons x xs ih =>
    simp only [List.map_cons, List.dropWhile_cons, isPySpace_pyUpperChar]
    split_ifs with h
    · exact ih
    · rfl

theorem stripChars_map_upper (l : List Char) :
    stripChars (l.map pyUpperChar) = (stripChars l).map pyUpperChar := by
  unfold stripChars
  rw [dropWhile_map_upper, ← List.map_reverse, dropWhile_map_upper, ← List.map_reverse]

theorem splitChar_ne_nil (sep : Char) (l : List Char) : splitChar sep l ≠ [] := by
  induction l with
  | nil => simp [splitChar]
  | cons x xs ih =>
    unfold splitChar
    split_ifs
    · simp
    · rcases h : splitChar sep xs with _ | ⟨hd, tl⟩
      · exact absurd h ih
      · simp [h]

theorem splitChar_map (sep : Char) (f : Char → Char) (hf : ∀ c, f c = sep ↔ c = sep)
    (l : List Char) :
    splitChar sep (l.map f) = (splitChar sep l).map (List.map f) := by
  induction l with
  | nil => rfl
  | cons x xs ih =>
    simp only [List.map_cons]
    unfold splitChar
    by_cases hx : x = sep
    · rw [if_pos ((hf x).2 hx), if_pos hx, ih]
      rfl
    · rw [if_neg (fun hc => hx ((hf x).1 hc)), if_neg hx]
      rcases h : splitChar sep xs with _ | ⟨hd, tl⟩
      · exact absurd h (splitChar_ne_nil sep xs)
      · rw [h] at ih
        rw [ih]
        simp only [List.map_cons]

theorem parse_pair_norm (p : String) :
    (splitChar '@' p.data).map (fun cs => String.mk ((stripChars cs).map pyUpperChar))
      = (splitChar '@' (p.data.map pyUpperChar)).map (fun cs => String.mk (stripChars cs)) := by
  rw [splitChar_map '@' pyUpperChar pyUpperChar_at_iff, List.map_map]
  refine congrFun (congrArg List.map (funext fun cs => ?_)) _
  simp only [Function.comp_apply, stripChars_map_upper]

theorem parse_pair_upper_eq (p1 p2 : String)
    (h : p1.data.map pyUpperChar = p2.data.map pyUpperChar) :
    parse_pair p1 = parse_pair p2 := by
  unfold parse_pair
  rw [parse_pair_norm p1, parse_pair_norm p2, h]

/-! ### Claim theorems: C9, C5, C4, C6 -/

/-- Claim C9: match creation upper-cases both team short codes before
index lookup and before building the hash input, so two pair strings
that agree up to letter case parse to the same short-code pair, and the
whole per-match payload construction (team-id lookups, external id,
submission payload) yields the same result on both (the error strings on
failing runs echo the raw pair and are discarded by `Except.toOption`). -/
theorem c9_pair_case_insensitive :
    ∀ p1 p2 : String, p1.data.map pyUpperChar = p2.data.map pyUpperChar →
      parse_pair p1 = parse_pair p2
      ∧ ∀ league by_short season week date_str tz_name hhmm,
          (build_match_payload league by_short season week date_str tz_name p1 hhmm).toOption
            = (build_match_payload league by_short season week date_str tz_name p2 hhmm).toOption := by
  intro p1 p2 h
  have hpp := parse_pair_upper_eq p1 p2 h
  refine ⟨hpp, ?_⟩
  intro league by_short season week date_str tz_name hhmm
  unfold build_match_payload
  rw [hpp]
  cases hp : parse_pair p2 with
  | error e => rfl
  | ok pr =>
    obtain ⟨hs, as⟩ := pr
    dsimp only
    cases h1 : dictFind by_short hs <;> cases h2 : dictFind by_short as <;> rfl

/-- Witness for C9: the lowercase and uppercase spellings of the same
pair parse identically. -/
theorem c9_pair_case_insensitive_witness :
    parse_pair "buf@mia" = parse_pair "BUF@MIA" :=
  (c9_pair_case_insensitive "buf@mia" "BUF@MIA" (by decide)).1

/-- Claim C5: the Team Index upper-cases every short-code key it stores
(every stored key is a fixed point of upper-casing), lookups of a key
absent from the mapping report absence (`none`) and never throw (lookup
is a total function into `Option`), and it is the match-creation
workflow that raises the `ValueError` naming the offending pair when a
looked-up short code is absent. -/
theorem c5_team_index :
    (∀ rows kv, kv ∈ (load_teams_index rows).1 → pyUpperStr kv.1 = kv.1)
    ∧ (∀ m k, (∀ kv ∈ m, kv.1 ≠ k) → dictFind m k = none)
    ∧ (∀ league by_short season week date_str tz_name pair hhmm hs as,
        parse_pair pair = Except.ok (hs, as) →
        (dictFind by_short hs = none ∨ dictFind by_short as = none) →
        build_match_payload league by_short season week date_str tz_name pair hhmm
          = Except.error ("Equipo no encontrado en teams.json: " ++ pair)) := by
  refine ⟨?_, ?_, ?_⟩
  · have hstep : ∀ (rows : List TeamRowJson)
        (acc : List (String × String) × List (String × String)),
        (∀ kv ∈ acc.1, pyUpperStr kv.1 = kv.1) →
        ∀ kv ∈ (rows.foldl teamsIndexStep acc).1, pyUpperStr kv.1 = kv.1 := by
      intro rows
      induction rows with
      | nil => intro acc hacc; exact hacc
      | cons r rest ih =>
        intro acc hacc
        apply ih
        unfold teamsIndexStep
        dsimp only
        split_ifs with hc
        · intro kv hkv
          unfold dictInsert at hkv
          split_ifs at hkv with hmem
          · simp only [List.mem_map] at hkv
            obtain ⟨p, hp, hpe⟩ := hkv
            by_cases hpk : p.1 = pyUpperStr (pyStrip (orElseStr r.short_name ""))
            · rw [if_pos hpk] at hpe
              rw [← hpe]
              have : pyUpperStr (pyUpperStr (pyStrip (orElseStr r.short_name "")))
                  = pyUpperStr (pyStrip (orElseStr r.short_name "")) := by
                unfold pyUpperStr
                dsimp only
                rw [List.map_map]
                congr 1
                refine List.map_congr_left ?_
                intro x _
                exact pyUpperChar_idem x
              exact this
            · rw [if_neg hpk] at hpe
              rw [← hpe]
              exact hacc p hp
          · rcases List.mem_append.1 hkv with hin | hin
            · exact hacc kv hin
            · simp only [List.mem_singleton] at hin
              rw [hin]
              unfold pyUpperStr
              dsimp only
              rw [List.map_map]
              congr 1
              refine List.map_congr_left ?_
              intro x _
              exact pyUpperChar_idem x
        · exact hacc
    intro rows kv hkv
    exact hstep rows ([], []) (by simp) kv hkv
  · intro m k h
    unfold dictFind
    rw [List.find?_eq_none.2]
    · rfl
    · intro kv hkv
      simp only [decide_eq_true_eq]
      exact h kv hkv
  · intro league by_short season week date_str tz_name pair hhmm hs as hp hnone
    unfold build_match_payload
    rw [hp]
    dsimp only
    cases h1 : dictFind by_short hs <;> cases h2 : dictFind by_short as
    · rfl
    · rfl
    · rfl
    · exfalso
      rcases hnone with hn | hn
      · rw [h1] at hn; exact Option.noConfusion hn
      · rw [h2] at hn; exact Option.noConfusion hn

/-- Witness for C5: looking up an unknown pair in an empty index makes
the workflow produce the `ValueError` naming the pair. -/
theorem c5_team_index_witness :
    build_match_payload "L" [] "2025" 1 "2025-09-08" "America/Lima" "XXX@YYY" "17:55"
      = Except.error ("Equipo no encontrado en teams.json: " ++ "XXX@YYY") :=
  c5_team_index.2.2 "L" [] "2025" 1 "2025-09-08" "America/Lima" "XXX@YYY" "17:55"
    "XXX" "YYY" rfl (Or.inl rfl)

/-- Claim C4 (amended): a permission that upper-cases to "PUBLIC" forces
the submitted password to null regardless of the caller-supplied value,
and the submitted permission field is the upper-cased permission; for
any other permission (including "PRIVATE") the caller-supplied password
is passed through unchanged — which may itself be null, since the code
does not enforce a password for private rooms. -/
theorem c4_room_password_policy :
    (∀ league name description player_limit coins permission password image_url
        prize_type percentage fixed_amount reward_description top_winners start_week end_week,
      pyUpperStr permission = "PUBLIC" →
        (room_payload league name description player_limit coins permission password
          image_url prize_type percentage fixed_amount reward_description top_winners
          start_week end_week).password = none
        ∧ (room_payload league name description player_limit coins permission password
          image_url prize_type percentage fixed_amount reward_description top_winners
          start_week end_week).permission = "PUBLIC")
    ∧ (∀ league name description player_limit coins permission password image_url
        prize_type percentage fixed_amount reward_description top_winners start_week end_week,
      pyUpperStr permission ≠ "PUBLIC" →
        (room_payload league name description player_limit coins permission password
          image_url prize_type percentage fixed_amount reward_description top_winners
          start_week end_week).password = password) := by
  constructor
  · intro league name description player_limit coins permission password image_url
      prize_type percentage fixed_amount reward_description top_winners start_week end_week h
    constructor <;> simp [room_payload, h]
  · intro league name description player_limit coins permission password image_url
      prize_type percentage fixed_amount reward_description top_winners start_week end_week h
    simp [room_payload, h]

/-- Witness for C4 (amended): a lowercase "public" permission with a
supplied password still yields a null password and permission "PUBLIC". -/
theorem c4_room_password_policy_witness :
    (room_payload "L1" "sala" "" 10 10 "public" (some "secreto")
        "https://img" "money_fixed" 100 100 "Premio" 1 1 18).password = none
      ∧ (room_payload "L1" "sala" "" 10 10 "public" (some "secreto")
        "https://img" "money_fixed" 100 100 "Premio" 1 1 18).permission = "PUBLIC" :=
  c4_room_password_policy.1 "L1" "sala" "" 10 10 "public" (some "secreto")
    "https://img" "money_fixed" 100 100 "Premio" 1 1 18 (by decide)

/-- Counterexample for C4: a room created with permission "PRIVATE" and
no caller-supplied password is submitted with a null password, refuting
the claim that a PRIVATE room always carries a non-null password in the
submitted payload. -/
theorem c4_private_null_password_counterexample :
    (room_payload "L1" "sala" "" 10 10 "PRIVATE" none
        "https://img" "money_fixed" 100 100 "Premio" 1 1 18).password = none
      ∧ (room_payload "L1" "sala" "" 10 10 "PRIVATE" none
        "https://img" "money_fixed" 100 100 "Premio" 1 1 18).permission = "PRIVATE" := by
  constructor <;> decide

/-- Claim C6: `save_match` is an upsert by the primary key `api_id`
(uniqueness of keys is preserved, the new row is stored, and every other
surviving row is an old row with a different key), and
`load_matches_by_week` returns exactly the projections of the rows of the
requested week (as a permutation of the filtered table) in ascending
order of the stored kickoff string. -/
theorem c6_match_store :
    (∀ db row, ((db.map MatchRow.api_id).Nodup) →
        ((save_match db row).map MatchRow.api_id).Nodup)
    ∧ (∀ db row, row ∈ save_match db row)
    ∧ (∀ db row r, r ∈ save_match db row → r = row ∨ (r ∈ db ∧ r.api_id ≠ row.api_id))
    ∧ (∀ db week, List.Sorted (fun a b : WeekRow => a.start_time_utc ≤ b.start_time_utc)
        (load_matches_by_week db week))
    ∧ (∀ db week, (load_matches_by_week db week).Perm
        ((db.filter (fun r => r.week = week)).map
          (fun r => (⟨r.api_id, r.home, r.away, r.start_time_utc⟩ : WeekRow)))) := by
  refine ⟨?_, ?_, ?_, ?_, ?_⟩
  · intro db row h
    unfold save_match
    rw [List.map_append]
    apply List.Nodup.append
    · exact h.sublist ((List.filter_sublist db).map MatchRow.api_id)
    · simp
    · intro a ha hb
      simp only [List.mem_map, List.mem_filter, decide_eq_true_eq] at ha
      simp only [List.map_cons, List.map_nil, List.mem_singleton] at hb
      obtain ⟨r, ⟨_, hr⟩, hra⟩ := ha
      exact hr (hra.trans hb)
  · intro db row
    unfold save_match
    simp
  · intro db row r hr
    unfold save_match at hr
    rcases List.mem_append.1 hr with hin | hin
    · simp only [List.mem_filter, decide_eq_true_eq] at hin
      exact Or.inr hin
    · simp only [List.mem_singleton] at hin
      exact Or.inl hin
  · intro db week
    unfold load_matches_by_week
    apply List.Pairwise.map
    · intro a b hab
      exact hab
    · exact List.sorted_insertionSort rowLe _
  · intro db week
    unfold load_matches_by_week
    exact (List.perm_insertionSort rowLe _).map _

/-- Witness for C6: preserving key uniqueness when upserting over a
one-row table whose key matches the new row. -/
theorem c6_match_store_witness :
    (([(⟨"m1", "e1", "BUF", "MIA", "2025-09-08T22:55:00.000000Z", 1⟩ : MatchRow)].map
        MatchRow.api_id).Nodup)
    ∧ ((save_match [(⟨"m1", "e1", "BUF", "MIA", "2025-09-08T22:55:00.000000Z", 1⟩ : MatchRow)]
        ⟨"m1", "e2", "NE", "NYJ", "2025-09-09T00:00:00.000000Z", 1⟩).map
        MatchRow.api_id).Nodup :=
  ⟨by decide, c6_match_store.1 _ _ (by decide)⟩

/-! ### Loop accounting helpers for C7 -/

theorem create_one_match_count (league : String) (by_short : List (String × String))
    (season : String) (week : Int) (date_str tz_name : String) (dry_run : Bool)
    (db : List MatchRow) (resp : HttpResp) (pair hhmm : String) :
    (create_one_match league by_short season week date_str tz_name dry_run db resp pair hhmm).created
      + (create_one_match league by_short season week date_str tz_name dry_run db resp pair hhmm).errors
      = 1 := by
  unfold create_one_match
  cases hb : build_match_payload league by_short season week date_str tz_name pair hhmm with
  | error e => rfl
  | ok bm =>
    dsimp only
    split_ifs with h1 h2
    · rfl
    · rfl
    · cases resp.body with
      | none => rfl
      | some body =>
        dsimp only
        split_ifs <;> rfl

theorem create_one_match_err_echo (league : String) (by_short : List (String × String))
    (season : String) (week : Int) (date_str tz_name : String) (dry_run : Bool)
    (db : List MatchRow) (resp : HttpResp) (pair hhmm : String) :
    (create_one_match league by_short season week date_str tz_name dry_run db resp pair hhmm).errors = 1 →
    ∃ msg, Event.echoErr msg
      ∈ (create_one_match league by_short season week date_str tz_name dry_run db resp pair hhmm).events := by
  unfold create_one_match
  cases hb : build_match_payload league by_short season week date_str tz_name pair hhmm with
  | error e => exact fun _ => ⟨"[ERR] " ++ e, by simp⟩
  | ok bm =>
    dsimp only
    split_ifs with h1 h2
    · intro h; exact absurd h (by simp)
    · exact fun _ => ⟨"[ERR] non-2xx status", by simp⟩
    · cases resp.body with
      | none => exact fun _ => ⟨"[ERR] invalid JSON in response", by simp⟩
      | some body =>
        dsimp only
        split_ifs with h3
        · intro h; exact absurd h (by simp)
        · intro h; exact absurd h (by simp)

theorem matches_loop_count (league : String) (by_short : List (String × String))
    (season : String) (week : Int) (date_str tz_name : String) (dry_run : Bool)
    (resps : Nat → HttpResp) :
    ∀ (l : List (String × String)) (i created errors : Nat) (ev : List Event)
      (db : List MatchRow),
      (matches_loop league by_short season week date_str tz_name dry_run resps l i
          created errors ev db).1
        + (matches_loop league by_short season week date_str tz_name dry_run resps l i
          created errors ev db).2.1
        = created + errors + l.length := by
  intro l
  induction l with
  | nil => intro i created errors ev db; rfl
  | cons p rest ih =>
    intro i created errors ev db
    obtain ⟨pair, hhmm⟩ := p
    unfold matches_loop
    dsimp only
    rw [ih]
    have hc := create_one_match_count league by_short season week date_str tz_name dry_run
      db (resps i) pair hhmm
    simp only [List.length_cons]
    omega

theorem joinWith_mem (sep : String) :
    ∀ (l : List String) (k : String), k ∈ l → ∃ p q, joinWith sep l = p ++ k ++ q := by
  intro l
  induction l with
  | nil => intro k hk; exact absurd hk (List.not_mem_nil k)
  | cons x xs ih =>
    intro k hk
    simp only [List.mem_cons] at hk
    rcases hk with he | hm
    · subst he
      cases xs with
      | nil => exact ⟨"", "", by simp [joinWith]⟩
      | cons y ys =>
        refine ⟨"", sep ++ joinWith sep (y :: ys), ?_⟩
        simp [joinWith, String.append_assoc]
    · cases xs with
      | nil => exact absurd hm (List.not_mem_nil k)
      | cons y ys =>
        obtain ⟨p, q, hpq⟩ := ih k hm
        refine ⟨x ++ sep ++ p, q, ?_⟩
        show joinWith sep (x :: y :: ys) = x ++ sep ++ p ++ k ++ q
        unfold joinWith
        rw [hpq]
        simp [String.append_assoc]

/-! ### Claim theorems: C7, C8, C10, C3 -/

/-- Claim C7 (amended): in the match-creation loop every per-match error
is caught, reported through an error echo, and counted, and processing
continues so that successes and errors always total the number of pairs;
after the loop the summary echo is always emitted; but the command then
returns normally, so the process exit status is 0 (CmdExit.ok) even when
some matches failed — only fatal pre-loop errors produce a non-zero
status. -/
theorem c7_match_loop_error_handling :
    (∀ league by_short season week date_str tz_name dry_run db resp pair hhmm,
      (create_one_match league by_short season week date_str tz_name dry_run db resp pair hhmm).created
        + (create_one_match league by_short season week date_str tz_name dry_run db resp pair hhmm).errors
        = 1
      ∧ ((create_one_match league by_short season week date_str tz_name dry_run db resp pair hhmm).errors = 1 →
          ∃ msg, Event.echoErr msg
            ∈ (create_one_match league by_short season week date_str tz_name dry_run db resp pair hhmm).events))
    ∧ (∀ cfg wld season week date_str times pairs tz_name dry_run tok ev0,
        require_env cfg = Except.ok () →
        login_and_token cfg wld.loginResp = (Except.ok tok, ev0) →
        (commaSplit pairs).length = (commaSplit times).length →
        ∃ created errors ev db2,
          create_matches_run cfg wld season week date_str times pairs tz_name dry_run
            = (CmdExit.ok, ev0 ++ ev ++ [Event.echoSummary created errors], db2)
          ∧ created + errors = (commaSplit pairs).length) := by
  constructor
  · intro league by_short season week date_str tz_name dry_run db resp pair hhmm
    exact ⟨create_one_match_count league by_short season week date_str tz_name dry_run
        db resp pair hhmm,
      create_one_match_err_echo league by_short season week date_str tz_name dry_run
        db resp pair hhmm⟩
  · intro cfg wld season week date_str times pairs tz_name dry_run tok ev0 hreq hlog hlen
    unfold create_matches_run
    rw [hreq, hlog]
    dsimp only
    rw [if_neg (fun hc => hc hlen)]
    refine ⟨_, _, _, _, rfl, ?_⟩
    have hcount := matches_loop_count cfg.league_id (load_teams_index wld.teams).1 season week
      date_str tz_name dry_run wld.resps ((commaSplit pairs).zip (commaSplit times)) 1 0 0 [] wld.db0
    rw [List.length_zip, ← hlen, Nat.min_self] at hcount
    omega

/-- Witness for C7 (amended): a concrete run reaching the loop ends with
CmdExit.ok and a summary accounting for every pair. -/
theorem c7_match_loop_error_handling_witness :
    ∃ created errors ev db2,
      create_matches_run ⟨"http://x", "L", "", "", "tok"⟩
          ⟨⟨200, none⟩, (fun _ => ⟨200, none⟩), [], []⟩
          "2025" 1 "2025-09-08" "17:55" "XXX@YYY" "America/Lima" true
        = (CmdExit.ok, [] ++ ev ++ [Event.echoSummary created errors], db2)
      ∧ created + errors = (commaSplit "XXX@YYY").length :=
  c7_match_loop_error_handling.2 ⟨"http://x", "L", "", "", "tok"⟩
    ⟨⟨200, none⟩, (fun _ => ⟨200, none⟩), [], []⟩ "2025" 1 "2025-09-08" "17:55" "XXX@YYY"
    "America/Lima" true "tok" [] rfl rfl rfl

/-- Counterexample for C7: a run in which the single match fails (unknown
team) still terminates with CmdExit.ok, i.e. process exit status 0, while
the summary reports one error — refuting the claim that the process exits
with a non-zero status whenever any entity failed. -/
theorem c7_exit_zero_counterexample :
    create_matches_run ⟨"http://x", "L", "", "", "tok"⟩
        ⟨⟨200, none⟩, (fun _ => ⟨200, none⟩), [], []⟩
        "2025" 1 "2025-09-08" "17:55" "XXX@YYY" "America/Lima" true
      = (CmdExit.ok, [Event.echoErr "[ERR] Equipo no encontrado en teams.json: XXX@YYY",
          Event.echoSummary 0 1], [])
      ∧ CmdExit.code CmdExit.ok = 0 := by
  constructor
  · decide
  · rfl

/-- Claim C8 (amended): whenever any required configuration key is
missing, the three network-accessing commands (`create-matches`,
`create-room`, `set-week-results`) fail with the configuration error
enumerating every missing entry, with an empty effect trace — in
particular before any network request; the `dump-week-template` command,
however, performs no network activity at all and never checks the
configuration (see the counterexample). -/
theorem c8_config_fail_fast :
    ∀ cfg, missingKeys cfg ≠ [] →
      (require_env cfg
          = Except.error ("Falta " ++ joinWith " ," (missingKeys cfg) ++ " en .env"))
      ∧ (∀ k ∈ missingKeys cfg, ∃ p q,
          ("Falta " ++ joinWith " ," (missingKeys cfg) ++ " en .env") = p ++ k ++ q)
      ∧ (∀ wld season week date_str times pairs tz_name dry_run,
          create_matches_run cfg wld season week date_str times pairs tz_name dry_run
            = (CmdExit.configError ("Falta " ++ joinWith " ," (missingKeys cfg) ++ " en .env"),
               [], wld.db0))
      ∧ (∀ loginResp roomStatus name description player_limit coins permission password
            image_url prize_type percentage fixed_amount reward_description top_winners
            start_week end_week,
          create_room_run cfg loginResp roomStatus name description player_limit coins
            permission password image_url prize_type percentage fixed_amount
            reward_description top_winners start_week end_week
            = (CmdExit.configError ("Falta " ++ joinWith " ," (missingKeys cfg) ++ " en .env"), []))
      ∧ (∀ loginResp patchStatus week,
          set_week_results_run cfg loginResp patchStatus week
            = (CmdExit.configError ("Falta " ++ joinWith " ," (missingKeys cfg) ++ " en .env"), [])) := by
  intro cfg hne
  have hreq : require_env cfg
      = Except.error ("Falta " ++ joinWith " ," (missingKeys cfg) ++ " en .env") := by
    unfold require_env
    rw [if_neg]
    intro hc
    exact hne (List.isEmpty_iff.1 hc)
  refine ⟨hreq, ?_, ?_, ?_, ?_⟩
  · intro k hk
    obtain ⟨p, q, hpq⟩ := joinWith_mem " ," (missingKeys cfg) k hk
    refine ⟨"Falta " ++ p, q ++ " en .env", ?_⟩
    rw [hpq]
    simp [String.append_assoc]
  · intro wld season week date_str times pairs tz_name dry_run
    unfold create_matches_run
    rw [hreq]
  · intro loginResp roomStatus name description player_limit coins permission password
      image_url prize_type percentage fixed_amount reward_description top_winners
      start_week end_week
    unfold create_room_run
    rw [hreq]
  · intro loginResp patchStatus week
    unfold set_week_results_run
    rw [hreq]

/-- Witness for C8 (amended): a configuration missing every key makes
`create-matches` fail with the enumerating configuration error and an
empty effect trace. -/
theorem c8_config_fail_fast_witness :
    create_matches_run ⟨"", "", "", "", ""⟩ ⟨⟨200, none⟩, (fun _ => ⟨200, none⟩), [], []⟩
        "2025" 1 "2025-09-08" "17:55" "BUF@MIA" "America/Lima" true
      = (CmdExit.configError
          ("Falta " ++ joinWith " ," (missingKeys ⟨"", "", "", "", ""⟩) ++ " en .env"),
         [], []) :=
  (c8_config_fail_fast ⟨"", "", "", "", ""⟩ (by decide)).2.2.1
    ⟨⟨200, none⟩, (fun _ => ⟨200, none⟩), [], []⟩ "2025" 1 "2025-09-08" "17:55" "BUF@MIA"
    "America/Lima" true

/-- Counterexample for C8: with every required configuration key missing,
the `dump-week-template` command does not fail with a configuration
error — it runs to completion on the local store alone — refuting "every
command fails with a ConfigurationError". -/
theorem c8_dump_template_counterexample :
    missingKeys ⟨"", "", "", "", ""⟩ ≠ []
      ∧ dump_week_template_run
          [⟨"m1", "e1", "BUF", "MIA", "2025-09-08T22:55:00.000000Z", 1⟩] 1
        = (CmdExit.ok, [Event.fileWrite, Event.echoOther "Plantilla creada"]) := by
  constructor
  · decide
  · decide

/-- Claim C10: during match creation a row is written to the local store
only when the response status was 200 or 201 and the response body
carried a non-empty id (`data.get("id") or data.get("pk") or ""`); on
any error or non-2xx response the store is unchanged for that match; and
in dry-run mode the per-match step sends no HTTP request and never
writes the store. -/
theorem c10_conditional_store_write :
    (∀ league by_short season week date_str tz_name db resp pair hhmm,
      (create_one_match league by_short season week date_str tz_name true db resp pair hhmm).db = db
      ∧ (∀ e ∈ (create_one_match league by_short season week date_str tz_name true db resp pair hhmm).events,
          e.isNetwork = false)
      ∧ (∀ r, Event.dbWrite r
          ∉ (create_one_match league by_short season week date_str tz_name true db resp pair hhmm).events))
    ∧ (∀ league by_short season week date_str tz_name dry_run db resp pair hhmm,
        (create_one_match league by_short season week date_str tz_name dry_run db resp pair hhmm).db = db
        ∨ ∃ bm body,
            build_match_payload league by_short season week date_str tz_name pair hhmm
              = Except.ok bm
            ∧ dry_run = false
            ∧ (resp.status = 200 ∨ resp.status = 201)
            ∧ resp.body = some body
            ∧ orElseStr body.id (orElseStr body.pk "") ≠ ""
            ∧ (create_one_match league by_short season week date_str tz_name dry_run db resp pair hhmm).db
              = save_match db ⟨orElseStr body.id (orElseStr body.pk ""), bm.payload.external_id,
                  bm.home_short, bm.away_short, bm.payload.start_time, week⟩) := by
  constructor
  · intro league by_short season week date_str tz_name db resp pair hhmm
    unfold create_one_match
    cases hb : build_match_payload league by_short season week date_str tz_name pair hhmm with
    | error e => exact ⟨rfl, by simp [Event.isNetwork], by simp⟩
    | ok bm => exact ⟨rfl, by simp [Event.isNetwork], by simp⟩
  · intro league by_short season week date_str tz_name dry_run db resp pair hhmm
    unfold create_one_match
    cases hb : build_match_payload league by_short season week date_str tz_name pair hhmm with
    | error e => exact Or.inl rfl
    | ok bm =>
      dsimp only
      cases dry_run with
      | true => exact Or.inl rfl
      | false =>
        rw [if_neg (fun hc => Bool.noConfusion hc)]
        by_cases hst : resp.status ≠ 200 ∧ resp.status ≠ 201
        · rw [if_pos hst]
          exact Or.inl rfl
        · rw [if_neg hst]
          cases hbody : resp.body with
          | none => exact Or.inl rfl
          | some body =>
            dsimp only
            by_cases hid : orElseStr body.id (orElseStr body.pk "") = ""
            · rw [if_pos hid]
              exact Or.inl rfl
            · rw [if_neg hid]
              refine Or.inr ⟨bm, body, rfl, rfl, ?_, rfl, hid, rfl⟩
              by_cases h200 : resp.status = 200
              · exact Or.inl h200
              · by_cases h201 : resp.status = 201
                · exact Or.inr h201
                · exact absurd ⟨h200, h201⟩ hst

/-- Witness for C10: a dry-run step on a concrete input leaves the store
unchanged with no network events. -/
theorem c10_conditional_store_write_witness :
    (create_one_match "L" [("BUF", "t1"), ("MIA", "t2")] "2025" 1 "2025-09-08"
        "America/Lima" true [] ⟨200, none⟩ "BUF@MIA" "17:55").db = ([] : List MatchRow)
      ∧ ∀ e ∈ (create_one_match "L" [("BUF", "t1"), ("MIA", "t2")] "2025" 1 "2025-09-08"
          "America/Lima" true [] ⟨200, none⟩ "BUF@MIA" "17:55").events,
          e.isNetwork = false :=
  ⟨(c10_conditional_store_write.1 "L" [("BUF", "t1"), ("MIA", "t2")] "2025" 1 "2025-09-08"
      "America/Lima" [] ⟨200, none⟩ "BUF@MIA" "17:55").1,
   (c10_conditional_store_write.1 "L" [("BUF", "t1"), ("MIA", "t2")] "2025" 1 "2025-09-08"
      "America/Lima" [] ⟨200, none⟩ "BUF@MIA" "17:55").2.1⟩

/-- Claim C3 (spec-modelled): a Room whose `finished` flag is true is
left untouched by reconciliation — the record is returned unchanged and
no network call is made; the `finished` flag is never reset to false by
reconciliation (the only mutator in the spec's design); and a
reconciliation run over a state file in which every room is finished
writes back the state unchanged with an empty effect trace. -/
theorem c3_reconciliation_finished :
    (∀ now margin weekOk room, room.finished = true →
        reconcileRoom now margin weekOk room = (room, []))
    ∧ (∀ now margin weekOk room, room.finished = true →
        (reconcileRoom now margin weekOk room).1.finished = true)
    ∧ (∀ now margin weekOk store, (∀ room ∈ store, room.finished = true) →
        reconcileStore now margin weekOk store = (store, [])) := by
  have h1 : ∀ now margin weekOk room, room.finished = true →
      reconcileRoom now margin weekOk room = (room, []) := by
    intro now margin wk room h
    unfold reconcileRoom
    simp [h]
  refine ⟨h1, ?_, ?_⟩
  · intro now margin wk room h
    rw [h1 now margin wk room h]
    exact h
  · intro now margin wk store h
    unfold reconcileStore
    induction store with
    | nil => rfl
    | cons r rest ih =>
      simp only [List.map_cons, List.foldr_cons]
      have hr := h1 now margin (wk r.room_id) r (h r (by simp))
      rw [hr]
      have hrest := ih (fun room hm => h room (by simp [hm]))
      rw [Prod.ext_iff] at hrest
      obtain ⟨hm, hf⟩ := hrest
      dsimp only at hm hf
      rw [hm, hf]
      rfl

/-- Witness for C3: reconciling a concrete finished room is a no-op with
no events. -/
theorem c3_reconciliation_finished_witness :
    reconcileRoom 1000 3600 (fun _ => true)
        ⟨"r1", "L", 0, [["m1", "m2"]], true⟩
      = (⟨"r1", "L", 0, [["m1", "m2"]], true⟩, []) :=
  c3_reconciliation_finished.1 1000 3600 (fun _ => true)
    ⟨"r1", "L", 0, [["m1", "m2"]], true⟩ rfl

end Survivor
